import Mathlib

/-!
Shallow embedding of the bonsai-sdk protocol core
(`src/bonsai-ai/bonsai_ai/simulator_ws.py`, class `Simulator_WS`) and of the
rate counter (`src/bonsai-ai/build/lib/bonsai_ai/simulator.py`,
class `_RateCounter`).

Python dictionaries become association lists with overwrite-on-assign
semantics, protobuf messages become Lean structures whose unset optional
fields are `Option.none`, floats used for rewards and clock readings become
`ℚ`, and fallible Python code returns `Except CoreErr`.  External
collaborators that are not part of this repository's sources
(`InklingMessageFactory.message_for_dynamic_message`,
`InklingMessageFactory.new_message_from_proto`, `convert_state_to_proto`,
and the user-supplied simulation callbacks) are modelled as abstract
function-valued parameters (`Inkling`, `SimInterface`), since the claims
only depend on how `Simulator_WS` routes data through them.
-/

/-- Field names of a dynamically delivered schema. -/
abbrev FieldName := String

/-- Dynamic values carried in decoded payload dictionaries. -/
inductive PyVal where
  | str (s : String)
  | num (q : ℚ)
  | boolean (b : Bool)
  deriving DecidableEq, Repr

/-- A Python dictionary: an association list written in insertion order. -/
abbrev PyDict := List (FieldName × PyVal)

/-- Python dictionary assignment `d[k] = v`: overwrite the existing binding
of `k` if present, otherwise append a new binding. -/
def pyDictSet : PyDict → FieldName → PyVal → PyDict
  | [], k, v => [(k, v)]
  | (k', v') :: rest, k, v =>
      if k' = k then (k, v) :: rest else (k', v') :: pyDictSet rest k v

/-- Python dictionary read `d.get(k)`. -/
def pyDictLookup : PyDict → FieldName → Option PyVal
  | [], _ => none
  | (k', v') :: rest, k => if k' = k then some v' else pyDictLookup rest k

/-- A schema (`DescriptorProto`): the ordered list of declared field names.
Field types are opaque to this core, which only iterates the descriptors. -/
abbrev Schema := List FieldName

/-- A protobuf message as seen by `_dict_for_message`: its descriptor's
field list plus `getattr` access to each field's current value. -/
structure Message where
  fields : List FieldName
  getattr : FieldName → PyVal

/-- An opaque dynamically-typed payload (`dynamic_prediction`,
`dynamic_properties`): carried through uninterpreted. -/
abbrev DynMsg := PyDict

/-- A Python exception raised by user callback code, identified by its text. -/
abbrev PyErr := String

/-- The errors the embedded core can raise.  `bonsaiServerUnknownMessage`
and `bonsaiServerWsClosed` are both `BonsaiServerError` in the source, with
the offending message type resp. the close code/reason interpolated into
the error text; `typeError` is the Python `TypeError` raised when a
callable is applied to the wrong number of arguments;
`zeroDivisionError` is Python's division by zero; `uncaught` is a user
exception propagating with no wrapping by this core. -/
inductive CoreErr where
  | simulateError (e : PyErr)
  | episodeStartError (e : PyErr)
  | bonsaiServerUnknownMessage (t : Nat)
  | bonsaiServerWsClosed (code : Nat) (reason : String)
  | typeError
  | zeroDivisionError
  | uncaught (e : PyErr)
  deriving DecidableEq, Repr

/-- Source `ServerToSimulator.message_type`: the wire value is an integer; the
named constructors are the enumerators declared in the protocol, and
`OTHER n` stands for any integer value outside the declared enumeration. -/
inductive ServerMsgType where
  | UNKNOWN
  | ACKNOWLEDGE_REGISTER
  | SET_PROPERTIES
  | START
  | PREDICTION
  | RESET
  | STOP
  | FINISHED
  | OTHER (n : Nat)
  deriving DecidableEq, Repr

/-- The integer identity of a message type, used when an error message
interpolates the offending type (`"Received unknown message ({})"`). -/
def ServerMsgType.code : ServerMsgType → Nat
  | .UNKNOWN => 0
  | .ACKNOWLEDGE_REGISTER => 1
  | .SET_PROPERTIES => 2
  | .START => 3
  | .PREDICTION => 4
  | .RESET => 5
  | .STOP => 6
  | .FINISHED => 7
  | .OTHER n => n

/-- Source `SimulatorToServer.message_type` values set by the outgoing builders. -/
inductive OutMsgType where
  | REGISTER
  | READY
  | STATE
  deriving DecidableEq, Repr

/-- One entry of `SimulatorToServer.state_data`, as filled by
`_send_initial_state` and `_send_state`.  The source serializes the state
message to bytes before storing it; serialization is external, so the
entry holds the message value itself. -/
structure StateData where
  state : Option Message := none
  reward : ℚ := 0
  terminal : Bool := false
  action_taken : Option DynMsg := none

/-- The outgoing `SimulatorToServer` message.  A protobuf enum field left
at its zero value is falsy in Python, modelled as `message_type = none`. -/
structure ToServer where
  message_type : Option OutMsgType := none
  sim_id : Int := 0
  register_data_name : Option String := none
  state_data : List StateData := []

/-- A freshly constructed `SimulatorToServer()` with every field unset. -/
def emptyToServer : ToServer := {}

/-- Source `ServerToSimulator.acknowledge_register_data`. -/
structure AckData where
  properties_schema : Schema
  output_schema : Schema
  prediction_schema : Schema
  sim_id : Int

/-- Source `ServerToSimulator.set_properties_data`. -/
structure SetPropertiesData where
  prediction_schema : Schema
  reward_name : String
  dynamic_properties : DynMsg

/-- One entry of `ServerToSimulator.prediction_data`. -/
structure PredictionData where
  dynamic_prediction : DynMsg

/-- The incoming `ServerToSimulator` message with the fields this core
reads. -/
structure FromServer where
  message_type : ServerMsgType
  acknowledge_register_data : AckData
  set_properties_data : SetPropertiesData
  prediction_data : List PredictionData

/-- Source `Simulator_WS.SimStep.__init__`: `prediction`, `state` start at `None`,
`reward` at `0`, `terminal` at `False`. -/
structure SimStep where
  prediction : Option DynMsg := none
  state : Option Message := none
  reward : ℚ := 0
  terminal : Bool := false

/-- The session state a `Simulator_WS` instance carries across run cycles
(`__init__`): schemas are `None` until the handshake response stores them,
`_sim_id` starts at `-1`, `_prev_message_type` at `UNKNOWN`. -/
structure Session where
  name : String
  objectiveName : Option String := none
  prevMessageType : ServerMsgType := .UNKNOWN
  propertiesSchema : Option Schema := none
  outputSchema : Option Schema := none
  predictionSchema : Option Schema := none
  simId : Int := -1
  initProperties : PyDict := []
  simSteps : List SimStep := []
  predictorAction : PyDict := []

/-- The state `Simulator_WS.__init__` leaves a fresh session in. -/
def initSession (name : String) : Session := { name := name }

/-- The user-supplied simulation, seen through the `_on_*` hooks the core
invokes (`Simulator._on_episode_start`, `_on_simulate`,
`_on_episode_finish`); `predict` is `brain.config.predict`.  `σ` is the
simulation's private state, threaded explicitly. -/
structure SimInterface (σ : Type) where
  predict : Bool
  onEpisodeStart : σ → PyDict → Except PyErr (σ × PyDict)
  onSimulate : σ → PyDict → Except PyErr (σ × PyDict × ℚ × Bool)
  onEpisodeFinish : σ → Except PyErr σ

/-- The external `InklingMessageFactory` together with
`convert_state_to_proto`; none of this code is part of this repository's
sources, so it is held abstract. -/
structure Inkling where
  messageForDynamicMessage : Option DynMsg → Option Schema → Option Message
  newStateMessage : Option Schema → Message
  convertStateToProto : Message → PyDict → Message

/-- Source `Simulator_WS._dict_for_message`: unpack a protobuf message into a
Python dictionary; a `None` message yields an empty dictionary rather than
crashing. -/
def dict_for_message (message : Option Message) : PyDict :=
  match message with
  | none => []
  | some m => m.fields.foldl (fun result field => pyDictSet result field (m.getattr field)) []

/-- The encoded state message `_new_state_message` + `convert_state_to_proto`
produce from a user state dictionary. -/
def encodedState (ink : Inkling) (s : Session) (state : PyDict) : Message :=
  ink.convertStateToProto (ink.newStateMessage s.outputSchema) state

/-- The action dictionary `_advance` / `_cache_action_for_predictor` decode
from a stored prediction against the session's current prediction schema. -/
def actionFor (ink : Inkling) (s : Session) (prediction : Option DynMsg) : PyDict :=
  dict_for_message (ink.messageForDynamicMessage prediction s.predictionSchema)

/-- The outgoing builders named in `Simulator_WS._dispatch_send`. -/
inductive SendBuilder where
  | sendRegistration
  | sendReady
  | sendInitialState
  | sendState
  deriving DecidableEq, Repr

/-- Source `Simulator_WS._dispatch_send`, built in `__init__` with
`self._sim.predict` already resolved: a dictionary from the previous
incoming message type to the outgoing builder's name.  `FINISHED` and any
undeclared value have no key, which `_on_send` turns into the `'default'`
lookup. -/
def dispatch_send (predict : Bool) : ServerMsgType → Option SendBuilder
  | .UNKNOWN => some .sendRegistration
  | .ACKNOWLEDGE_REGISTER => some (if predict then .sendInitialState else .sendReady)
  | .SET_PROPERTIES => some (if predict then .sendInitialState else .sendReady)
  | .START => some .sendInitialState
  | .PREDICTION => some .sendState
  | .RESET => some (if predict then .sendInitialState else .sendReady)
  | .STOP => some (if predict then .sendInitialState else .sendReady)
  | .FINISHED => none
  | .OTHER _ => none

/-- Source `Simulator_WS._send_registration`: set `message_type = REGISTER` and
the simulator name. -/
def send_registration (s : Session) (to_server : ToServer) : ToServer :=
  { to_server with
      message_type := some .REGISTER
      register_data_name := some s.name }

/-- Source `Simulator_WS._send_ready`: set `message_type = READY` and the
session's `sim_id`. -/
def send_ready (s : Session) (to_server : ToServer) : ToServer :=
  { to_server with
      message_type := some .READY
      sim_id := s.simId }

/-- Source `Simulator_WS._send_initial_state`: set `message_type = STATE` and
`sim_id`, call `episode_start(init_properties)` (wrapping any exception as
`EpisodeStartError`), encode the returned initial state against the output
schema, and append one entry with reward `0` and terminal `False`
(`action_taken` is left unset for the initial state). -/
def send_initial_state {σ : Type} (sim : SimInterface σ) (ink : Inkling)
    (st : σ) (s : Session) (to_server : ToServer) : Except CoreErr (σ × ToServer) :=
  let to_server := { to_server with message_type := some OutMsgType.STATE, sim_id := s.simId }
  match sim.onEpisodeStart st s.initProperties with
  | .error e => .error (.episodeStartError e)
  | .ok (st', initial_state) =>
      let state_message := encodedState ink s initial_state
      .ok (st', { to_server with
                    state_data := to_server.state_data ++
                      [{ state := some state_message, reward := 0, terminal := false }] })

/-- The `for step in self._sim_steps` loop of `_send_state`: append one
entry per step whose `state` is set, count a logged warning for each step
whose `state` is still `None`. -/
def send_state_loop : List SimStep → List StateData → Nat → List StateData × Nat
  | [], acc, warnings => (acc, warnings)
  | step :: rest, acc, warnings =>
      match step.state with
      | some msg =>
          send_state_loop rest
            (acc ++ [{ state := some msg, reward := step.reward,
                       terminal := step.terminal, action_taken := step.prediction }])
            warnings
      | none => send_state_loop rest acc (warnings + 1)

/-- Source `Simulator_WS._send_state`: set `message_type = STATE` and `sim_id`,
emit one entry per advanced step in batch order, then clear `_sim_steps`
unconditionally.  The third component counts the
`"WARNING: Missing step in send_state"` log lines. -/
def send_state (s : Session) (to_server : ToServer) : Session × ToServer × Nat :=
  let (entries, warnings) := send_state_loop s.simSteps [] 0
  ({ s with simSteps := [] },
   { to_server with
       message_type := some OutMsgType.STATE
       sim_id := s.simId
       state_data := to_server.state_data ++ entries },
   warnings)

/-- Source `Simulator_WS._on_send`: look the previous incoming type up in
`_dispatch_send`; a missing key yields the name `'default'`, which is not
an attribute of the class, so `getattr` falls back to the zero-parameter
function `lambda: log.simulator("Finished")` — calling it with the
`to_server` argument raises `TypeError`. -/
def on_send {σ : Type} (sim : SimInterface σ) (ink : Inkling)
    (st : σ) (s : Session) (to_server : ToServer) :
    Except CoreErr (σ × Session × ToServer) :=
  match dispatch_send sim.predict s.prevMessageType with
  | none => .error .typeError
  | some .sendRegistration => .ok (st, s, send_registration s to_server)
  | some .sendReady => .ok (st, s, send_ready s to_server)
  | some .sendInitialState =>
      match send_initial_state sim ink st s to_server with
      | .error e => .error e
      | .ok (st', to_server') => .ok (st', s, to_server')
  | some .sendState =>
      let (s', to_server', _warnings) := send_state s to_server
      .ok (st, s', to_server')

/-- The incoming handlers named in `Simulator_WS._dispatch_recv`. -/
inductive RecvHandler where
  | onAcknowledgeRegister
  | onSetProperties
  | onStart
  | onPrediction
  | onReset
  | onStop
  | onFinished
  deriving DecidableEq, Repr

/-- Source `Simulator_WS._dispatch_recv`: incoming message type to handler name;
`UNKNOWN` and any undeclared value have no key. -/
def dispatch_recv : ServerMsgType → Option RecvHandler
  | .ACKNOWLEDGE_REGISTER => some .onAcknowledgeRegister
  | .SET_PROPERTIES => some .onSetProperties
  | .START => some .onStart
  | .PREDICTION => some .onPrediction
  | .RESET => some .onReset
  | .STOP => some .onStop
  | .FINISHED => some .onFinished
  | .UNKNOWN => none
  | .OTHER _ => none

/-- Source `Simulator_WS._on_acknowledge_register`: store the three schemas and
the server-assigned `sim_id`. -/
def on_acknowledge_register (s : Session) (data : AckData) : Session :=
  { s with
      propertiesSchema := some data.properties_schema
      outputSchema := some data.output_schema
      predictionSchema := some data.prediction_schema
      simId := data.sim_id }

/-- Source `Simulator_WS._on_set_properties`: replace the prediction schema with
the one in the message, store the objective (reward) name, and decode the
dynamic properties against the properties schema into `_init_properties`. -/
def on_set_properties (ink : Inkling) (s : Session) (data : SetPropertiesData) : Session :=
  let properties_message :=
    ink.messageForDynamicMessage (some data.dynamic_properties) s.propertiesSchema
  { s with
      predictionSchema := some data.prediction_schema
      objectiveName := some data.reward_name
      initProperties := dict_for_message properties_message }

/-- Source `Simulator_WS._on_prediction`: for every prediction entry create a
fresh `SimStep` holding the dynamic prediction, append it to the batch,
and cache the decoded action for the predictor (last entry wins). -/
def on_prediction (ink : Inkling) (s : Session) : List PredictionData → Session
  | [] => s
  | p :: rest =>
      let step : SimStep := { prediction := some p.dynamic_prediction }
      on_prediction ink
        { s with
            simSteps := s.simSteps ++ [step]
            predictorAction := actionFor ink s step.prediction }
        rest

/-- Source `Simulator_WS._on_recv`: look the handler up in `_dispatch_recv`; a
missing key falls back to `_raise`, which raises `BonsaiServerError`
naming the offending message type before any state is touched.  Only on
a successful handler run is `_prev_message_type` advanced to the
message's type. -/
def on_recv {σ : Type} (sim : SimInterface σ) (ink : Inkling)
    (st : σ) (s : Session) (from_server : FromServer) :
    Except CoreErr (σ × Session) :=
  match dispatch_recv from_server.message_type with
  | none => .error (.bonsaiServerUnknownMessage from_server.message_type.code)
  | some handler =>
      let run : Except CoreErr (σ × Session) :=
        match handler with
        | .onAcknowledgeRegister =>
            .ok (st, on_acknowledge_register s from_server.acknowledge_register_data)
        | .onSetProperties =>
            .ok (st, on_set_properties ink s from_server.set_properties_data)
        | .onStart => .ok (st, s)
        | .onPrediction => .ok (st, on_prediction ink s from_server.prediction_data)
        | .onReset => .ok (st, s)
        | .onStop =>
            match sim.onEpisodeFinish st with
            | .error e => .error (.uncaught e)
            | .ok st' => .ok (st', s)
        | .onFinished => .ok (st, s)
      match run with
      | .error e => .error e
      | .ok (st', s') => .ok (st', { s' with prevMessageType := from_server.message_type })

/-- Observable callback invocations recorded while a batch is advanced, in
program order: the `simulate` call, the assignment of its results onto the
step, and the `episode_finish` / `episode_start` pair fired on a terminal
step. -/
inductive Event where
  | simulateCall (action : PyDict)
  | stepRecorded (state : Message) (reward : ℚ) (terminal : Bool)
  | episodeFinishCall
  | episodeStartCall (props : PyDict)

/-- Source `Simulator_WS._advance`: decode the step's stored prediction against
the current prediction schema, call `simulate` (wrapping an exception as
`SimulateError`), record the resulting state/reward/terminal on the step,
and, if the step came back terminal, call `episode_finish` then
`episode_start(init_properties)` — the single `try` block around the pair
wraps an exception from either call as `EpisodeStartError`, and the value
returned by `episode_start` is discarded. -/
def advance {σ : Type} (sim : SimInterface σ) (ink : Inkling)
    (st : σ) (s : Session) (step : SimStep) :
    Except CoreErr (σ × SimStep × List Event) :=
  let action := actionFor ink s step.prediction
  match sim.onSimulate st action with
  | .error e => .error (.simulateError e)
  | .ok (st', state, reward, terminal) =>
      let state_message := encodedState ink s state
      let step' := { step with state := some state_message, reward := reward, terminal := terminal }
      let events := [Event.simulateCall action, Event.stepRecorded state_message reward terminal]
      if terminal then
        match sim.onEpisodeFinish st' with
        | .error e => .error (.episodeStartError e)
        | .ok st'' =>
            match sim.onEpisodeStart st'' s.initProperties with
            | .error e => .error (.episodeStartError e)
            | .ok (stReset, _discarded) =>
                .ok (stReset, step', events ++ [Event.episodeFinishCall, Event.episodeStartCall s.initProperties])
      else .ok (st', step', events)

/-- The `for step in self._sim_steps: self._advance(step)` loop in
`Simulator_WS.run`: advance the batch front to back, threading the
simulation state; the session itself is read-only here. -/
def advanceBatch {σ : Type} (sim : SimInterface σ) (ink : Inkling)
    (st : σ) (s : Session) : List SimStep → Except CoreErr (σ × List SimStep × List Event)
  | [] => .ok (st, [], [])
  | step :: rest =>
      match advance sim ink st s step with
      | .error e => .error e
      | .ok (st', step', events) =>
          match advanceBatch sim ink st' s rest with
          | .error e => .error e
          | .ok (stF, rest', eventsRest) => .ok (stF, step' :: rest', events ++ eventsRest)

/-- Lines 333–337 of `Simulator_WS.run`: `read_message()` returning `None`
means the websocket closed, which raises `BonsaiServerError` carrying the
close code and reason; a delivered frame is returned as-is, so a dead
connection is never surfaced as an absent message. -/
def readPhase (frame : Option FromServer) (closeCode : Nat) (closeReason : String) :
    Except CoreErr FromServer :=
  match frame with
  | none => .error (.bonsaiServerWsClosed closeCode closeReason)
  | some f => .ok f

/-- The duplex channel a run cycle talks to: whether a write would
succeed, the frame `read_message` will deliver (`none` = channel closed),
and the close code/reason reported when it is closed. -/
structure Channel where
  sendOk : Bool := true
  recvFrame : Option FromServer := none
  closeCode : Nat := 0
  closeReason : String := ""

/-- Wire-level actions a run cycle performs, in order. -/
inductive WireOp where
  | sent (t : ToServer)
  | closedChannel

/-- Source `Simulator_WS.run`, one round trip with the connection already open:
advance the pending batch if the previous incoming type was `PREDICTION`;
build the outgoing message via `_on_send`; write it only when the builder
set a truthy `message_type` (a closed channel in the write raises with
close code/reason); read exactly one frame (`readPhase`); dispatch it via
`_on_recv`; finally, if the newly recorded previous type is `FINISHED`,
close the channel and report `False`, else report `True`. -/
def runCycle {σ : Type} (sim : SimInterface σ) (ink : Inkling)
    (st : σ) (s : Session) (ch : Channel) :
    Except CoreErr (σ × Session × Bool × List WireOp) :=
  let advanced : Except CoreErr (σ × Session) :=
    if s.prevMessageType = ServerMsgType.PREDICTION then
      match advanceBatch sim ink st s s.simSteps with
      | .error e => .error e
      | .ok (st', steps', _events) => .ok (st', { s with simSteps := steps' })
    else .ok (st, s)
  match advanced with
  | .error e => .error e
  | .ok (st1, s1) =>
    match on_send sim ink st1 s1 emptyToServer with
    | .error e => .error e
    | .ok (st2, s2, to_server) =>
      let written : Except CoreErr (List WireOp) :=
        if to_server.message_type.isSome then
          if ch.sendOk then .ok [WireOp.sent to_server]
          else .error (.bonsaiServerWsClosed ch.closeCode ch.closeReason)
        else .ok []
      match written with
      | .error e => .error e
      | .ok ops =>
        match readPhase ch.recvFrame ch.closeCode ch.closeReason with
        | .error e => .error e
        | .ok from_server =>
          match on_recv sim ink st2 s2 from_server with
          | .error e => .error e
          | .ok (st3, s3) =>
            if s3.prevMessageType = ServerMsgType.FINISHED then
              .ok (st3, s3, false, ops ++ [WireOp.closedChannel])
            else .ok (st3, s3, true, ops)

/-- Source `_RateCounter` state (`simulator.py`): event count, blended rate, and
the clock reading stored by the last `reset()`. -/
structure RateCounter where
  count : Nat
  rate : ℚ
  start : ℚ

/-- Source `_RateCounter.reset`: zero the counters and restart the clock at the
current time. -/
def RateCounter.reset (now : ℚ) : RateCounter :=
  { count := 0, rate := 0, start := now }

/-- The guard `delta is not 0` in `_RateCounter.update`: `delta` is a
float (a difference of `time.time()` readings) while the literal `0` is an
int, and CPython never considers a float identical to the int object `0`,
so this identity test is `True` for every value of `delta` — including
`0.0`. -/
def pyFloatIsNotIntZero (_delta : ℚ) : Bool := true

/-- Source `_RateCounter.update` at clock reading `now`: increment `count`,
let `delta = now - start`; the `delta is not 0` guard always passes
(`pyFloatIsNotIntZero`), after which `count / delta` raises
`ZeroDivisionError` when `delta` is zero, and otherwise the rate is
blended with `DECAY_RATE = 0.9`. -/
def RateCounter.update (now : ℚ) (c : RateCounter) : Except CoreErr RateCounter :=
  let count := c.count + 1
  let delta := now - c.start
  if pyFloatIsNotIntZero delta then
    if delta = 0 then .error .zeroDivisionError
    else
      let average := (count : ℚ) / delta
      .ok { c with count := count, rate := average * (9/10) + c.rate * (1 - 9/10) }
  else .ok { c with count := count }

/-- The incoming message types that have a key in `_dispatch_recv` — the
known enumeration of the protocol. -/
def knownRecvTypes : List ServerMsgType :=
  [.ACKNOWLEDGE_REGISTER, .SET_PROPERTIES, .START, .PREDICTION, .RESET, .STOP, .FINISHED]

/-- Declarative reading of the `_send_state` loop: one reply entry per
step whose resulting state is set, in batch order. -/
def stateEntries (steps : List SimStep) : List StateData :=
  steps.filterMap (fun step => step.state.map (fun msg =>
    { state := some msg, reward := step.reward, terminal := step.terminal,
      action_taken := step.prediction }))

/-- A concrete empty protobuf state message used by the test fixtures. -/
def msgC : Message := { fields := [], getattr := fun _ => PyVal.num 0 }

/-- A concrete `Inkling` fixture: dynamic payloads decode to no message,
and state conversion returns the allocated message unchanged. -/
def inkC : Inkling :=
  { messageForDynamicMessage := fun _ _ => none
    newStateMessage := fun _ => msgC
    convertStateToProto := fun m _ => m }

/-- A concrete training-mode simulation over state `Nat` whose `simulate`
always comes back terminal. -/
def simC : SimInterface Nat :=
  { predict := false
    onEpisodeStart := fun st _ => .ok (st + 100, [("angle", PyVal.num 1)])
    onSimulate := fun st _ => .ok (st + 1, [("angle", PyVal.num 2)], 2, true)
    onEpisodeFinish := fun st => .ok (st + 10) }

/-- A concrete training-mode simulation with trivial state and
never-terminal steps. -/
def simU : SimInterface Unit :=
  { predict := false
    onEpisodeStart := fun _ _ => .ok ((), [])
    onSimulate := fun _ _ => .ok ((), [], 0, false)
    onEpisodeFinish := fun _ => .ok () }

/-- A concrete simulation whose `episode_finish` raises and whose
`simulate` comes back terminal. -/
def simFinishBoom : SimInterface Unit :=
  { predict := false
    onEpisodeStart := fun _ _ => .ok ((), [])
    onSimulate := fun _ _ => .ok ((), [], 0, true)
    onEpisodeFinish := fun _ => .error "boom" }

/-- Concrete handshake payload for fixture messages. -/
def ackDataC : AckData :=
  { properties_schema := [], output_schema := [], prediction_schema := [], sim_id := 1 }

/-- Concrete properties payload for fixture messages. -/
def setPropsC : SetPropertiesData :=
  { prediction_schema := [], reward_name := "r", dynamic_properties := [] }

/-- A concrete incoming `FINISHED` message. -/
def finishedMsg : FromServer :=
  { message_type := .FINISHED, acknowledge_register_data := ackDataC,
    set_properties_data := setPropsC, prediction_data := [] }

/-- A concrete incoming `STOP` message. -/
def stopMsg : FromServer :=
  { message_type := .STOP, acknowledge_register_data := ackDataC,
    set_properties_data := setPropsC, prediction_data := [] }

/-- A concrete incoming message whose type is outside the declared
enumeration. -/
def wUnknownMsg : FromServer :=
  { message_type := .OTHER 42, acknowledge_register_data := ackDataC,
    set_properties_data := setPropsC, prediction_data := [] }

/-- A concrete pending step carrying a dynamic prediction. -/
def stepW : SimStep := { prediction := some [("delta", PyVal.num 1)] }

/-- The reply `_send_initial_state` builds for the `simC`/`inkC` fixture on
a fresh session. -/
def wInitReply : ToServer :=
  { message_type := some OutMsgType.STATE, sim_id := -1,
    state_data := [{ state := some msgC, reward := 0, terminal := false }] }

theorem pyDictLookup_set_self (d : PyDict) (k : FieldName) (v : PyVal) :
    pyDictLookup (pyDictSet d k v) k = some v := by
  induction d with
  | nil => simp [pyDictSet, pyDictLookup]
  | cons kv rest ih =>
    by_cases h : kv.1 = k
    · simp [pyDictSet, pyDictLookup, h]
    · simp [pyDictSet, pyDictLookup, h, ih]

theorem pyDictLookup_set_other (d : PyDict) (k k' : FieldName) (v : PyVal)
    (h : k' ≠ k) : pyDictLookup (pyDictSet d k v) k' = pyDictLookup d k' := by
  induction d with
  | nil =>
    simp only [pyDictSet, pyDictLookup]
    rw [if_neg (fun hh => h hh.symm)]
  | cons kv rest ih =>
    obtain ⟨k0, v0⟩ := kv
    by_cases h0 : k0 = k
    · subst h0
      simp only [pyDictSet, if_pos rfl, pyDictLookup]
      rw [if_neg (fun hh => h hh.symm), if_neg (fun hh => h hh.symm)]
    · simp [pyDictSet, if_neg h0, pyDictLookup, ih]

theorem dict_build_lookup (g : FieldName → PyVal) (fields : List FieldName)
    (acc : PyDict) (f : FieldName)
    (h : f ∈ fields ∨ pyDictLookup acc f = some (g f)) :
    pyDictLookup
      (fields.foldl (fun result field => pyDictSet result field (g field)) acc) f
      = some (g f) := by
  induction fields generalizing acc with
  | nil =>
    rcases h with h | h
    · cases h
    · simpa using h
  | cons x xs ih =>
    simp only [List.foldl_cons]
    apply ih
    by_cases hfx : f = x
    · subst hfx
      by_cases hmem : f ∈ xs
      · exact Or.inl hmem
      · exact Or.inr (pyDictLookup_set_self acc f (g f))
    · rcases h with h | h
      · rcases List.mem_cons.mp h with h | h
        · exact absurd h hfx
        · exact Or.inl h
      · exact Or.inr (by rw [pyDictLookup_set_other acc x f (g x) hfx] ; exact h)

theorem send_state_loop_spec (steps : List SimStep) (acc : List StateData) (w : Nat) :
    send_state_loop steps acc w =
      (acc ++ stateEntries steps,
       w + steps.countP (fun step => step.state.isNone)) := by
  induction steps generalizing acc w with
  | nil => simp [send_state_loop, stateEntries]
  | cons step rest ih =>
    cases hs : step.state with
    | none =>
      simp [send_state_loop, hs, stateEntries, ih, List.countP_cons, Nat.add_comm,
        Nat.add_assoc, Nat.add_left_comm]
    | some msg =>
      simp [send_state_loop, hs, stateEntries, ih, List.countP_cons]

theorem advanceBatch_append (σ : Type) (sim : SimInterface σ) (ink : Inkling)
    (s : Session) (l1 : List SimStep) :
    ∀ (l2 : List SimStep) (st st1 : σ) (l1' : List SimStep) (ev1 : List Event),
    advanceBatch sim ink st s l1 = .ok (st1, l1', ev1) →
    advanceBatch sim ink st s (l1 ++ l2) =
      (match advanceBatch sim ink st1 s l2 with
       | .error e => .error e
       | .ok (st2, l2', ev2) => .ok (st2, l1' ++ l2', ev1 ++ ev2)) := by
  induction l1 with
  | nil =>
    intro l2 st st1 l1' ev1 h
    simp [advanceBatch] at h
    obtain ⟨h1, h2, h3⟩ := h
    subst h1; subst h2; subst h3
    simp
    cases advanceBatch sim ink st s l2 with
    | error e => rfl
    | ok r => rfl
  | cons a l ih =>
    intro l2 st st1 l1' ev1 h
    simp only [advanceBatch, List.cons_append] at h ⊢
    split at h
    · cases h
    · rename_i stA a' evA ha
      split at h
      · cases h
      · rename_i stB l'' evB hb
        simp only [Except.ok.injEq, Prod.mk.injEq] at h
        obtain ⟨h1, h2, h3⟩ := h
        subst h1; subst h2; subst h3
        have hih := ih l2 stA stB l'' evB hb
        cases hc : advanceBatch sim ink stB s l2 with
        | error e => simp [ha, hih, hc]
        | ok rc =>
          obtain ⟨st2, l2', ev2⟩ := rc
          simp [ha, hih, hc]

/-- C1: for every previous incoming type in the dispatch table and each
mode, `_dispatch_send` selects exactly the builder of the §4.4 table —
`UNKNOWN` selects the REGISTER builder in both modes; `ACKNOWLEDGE_REGISTER`,
`SET_PROPERTIES`, `RESET` and `STOP` select the READY builder in training
mode and the initial-STATE builder in prediction mode; `START` selects the
initial-STATE builder in both modes; `PREDICTION` selects the batch-reply
STATE builder in both modes — and each builder stamps exactly that
outgoing message type; a fresh session starts at `UNKNOWN`, so `_on_send`
on it emits a REGISTER message in both modes. -/
theorem send_dispatch_matches_table :
  (∀ (σ : Type) (sim : SimInterface σ) (ink : Inkling) (st : σ) (s : Session)
      (t : ToServer) (st' : σ) (t' : ToServer),
      send_initial_state sim ink st s t = .ok (st', t') →
      t'.message_type = some OutMsgType.STATE)
  ∧ (∀ predict, dispatch_send predict .UNKNOWN = some .sendRegistration)
  ∧ (dispatch_send false .ACKNOWLEDGE_REGISTER = some .sendReady)
  ∧ (dispatch_send true .ACKNOWLEDGE_REGISTER = some .sendInitialState)
  ∧ (dispatch_send false .SET_PROPERTIES = some .sendReady)
  ∧ (dispatch_send true .SET_PROPERTIES = some .sendInitialState)
  ∧ (dispatch_send false .RESET = some .sendReady)
  ∧ (dispatch_send true .RESET = some .sendInitialState)
  ∧ (dispatch_send false .STOP = some .sendReady)
  ∧ (dispatch_send true .STOP = some .sendInitialState)
  ∧ (∀ predict, dispatch_send predict .START = some .sendInitialState)
  ∧ (∀ predict, dispatch_send predict .PREDICTION = some .sendState)
  ∧ (∀ name, (initSession name).prevMessageType = .UNKNOWN)
  ∧ (∀ (s : Session) (t : ToServer),
      (send_registration s t).message_type = some OutMsgType.REGISTER)
  ∧ (∀ (s : Session) (t : ToServer),
      (send_ready s t).message_type = some OutMsgType.READY)
  ∧ (∀ (s : Session) (t : ToServer),
      (send_state s t).2.1.message_type = some OutMsgType.STATE)
  ∧ (∀ (σ : Type) (sim : SimInterface σ) (ink : Inkling) (st : σ) (name : String)
      (t : ToServer),
      on_send sim ink st (initSession name) t =
        .ok (st, initSession name, send_registration (initSession name) t)) := by
  refine ⟨?_, ?_, rfl, rfl, rfl, rfl, rfl, rfl, rfl, rfl, ?_, ?_, ?_, ?_, ?_, ?_, ?_⟩
  · intro σ sim ink st s t st' t' h
    unfold send_initial_state at h
    cases hE : sim.onEpisodeStart st s.initProperties with
    | error e => rw [hE] at h; cases h
    | ok r =>
      obtain ⟨st2, init⟩ := r
      rw [hE] at h
      simp only [Except.ok.injEq, Prod.mk.injEq] at h
      obtain ⟨_, h2⟩ := h
      subst h2
      rfl
  · intro predict; rfl
  · intro predict; rfl
  · intro predict; rfl
  · intro name; rfl
  · intro s t; rfl
  · intro s t; rfl
  · intro s t; rfl
  · intro σ sim ink st name t; rfl

/-- Witness for C1: at the concrete fixture the initial-state builder
succeeds and the theorem yields `STATE` as its stamped message type. -/
theorem send_dispatch_matches_table_witness :
  send_initial_state simC inkC 0 (initSession "w") emptyToServer = .ok (100, wInitReply)
  ∧ wInitReply.message_type = some OutMsgType.STATE := by
  refine ⟨rfl, ?_⟩
  exact send_dispatch_matches_table.1 Nat simC inkC 0 (initSession "w")
    emptyToServer 100 wInitReply rfl

/-- C2: dispatching an incoming message whose type is outside the known
enumeration raises `BonsaiServerError` naming the offending type; the
handler fallback `_raise` fires before any assignment, and in this
functional embedding an `Except.error` result hands the caller no updated
session, so `_prev_message_type` and all other session state are
unchanged and the rejected message never advances the state machine. -/
theorem unknown_message_type_rejected (σ : Type) (sim : SimInterface σ)
    (ink : Inkling) (st : σ) (s : Session) (f : FromServer)
    (h : f.message_type ∉ knownRecvTypes) :
    on_recv sim ink st s f =
      .error (CoreErr.bonsaiServerUnknownMessage f.message_type.code) := by
  unfold on_recv
  cases hm : f.message_type with
  | UNKNOWN => rfl
  | OTHER n => rfl
  | ACKNOWLEDGE_REGISTER => exact absurd (hm ▸ (by decide : ServerMsgType.ACKNOWLEDGE_REGISTER ∈ knownRecvTypes)) h
  | SET_PROPERTIES => exact absurd (hm ▸ (by decide : ServerMsgType.SET_PROPERTIES ∈ knownRecvTypes)) h
  | START => exact absurd (hm ▸ (by decide : ServerMsgType.START ∈ knownRecvTypes)) h
  | PREDICTION => exact absurd (hm ▸ (by decide : ServerMsgType.PREDICTION ∈ knownRecvTypes)) h
  | RESET => exact absurd (hm ▸ (by decide : ServerMsgType.RESET ∈ knownRecvTypes)) h
  | STOP => exact absurd (hm ▸ (by decide : ServerMsgType.STOP ∈ knownRecvTypes)) h
  | FINISHED => exact absurd (hm ▸ (by decide : ServerMsgType.FINISHED ∈ knownRecvTypes)) h

/-- Witness for C2: a message with the undeclared type value 42 is
rejected with the error naming 42. -/
theorem unknown_message_type_rejected_witness :
  (wUnknownMsg.message_type ∉ knownRecvTypes)
  ∧ on_recv simU inkC () (initSession "sim") wUnknownMsg =
      .error (CoreErr.bonsaiServerUnknownMessage 42) := by
  refine ⟨by decide, ?_⟩
  exact unknown_message_type_rejected Unit simU inkC () (initSession "sim")
    wUnknownMsg (by decide)

/-- C4: building the batch reply from any batch produces a single STATE
message whose entries are exactly one (state, reward, terminal,
action-taken) tuple per step with a resulting state, in the batch's
original order (`stateEntries` is a `filterMap` over the batch); each
stateless step contributes one logged warning and no entry; and
`_sim_steps` is cleared unconditionally once the reply is assembled. -/
theorem batch_reply_entries_in_order_and_cleared (s : Session) (t : ToServer) :
    (send_state s t).1.simSteps = []
    ∧ (send_state s t).2.1.message_type = some OutMsgType.STATE
    ∧ (send_state s t).2.1.sim_id = s.simId
    ∧ (send_state s t).2.1.state_data = t.state_data ++ stateEntries s.simSteps
    ∧ (send_state s t).2.2 = s.simSteps.countP (fun step => step.state.isNone) := by
  unfold send_state
  rw [send_state_loop_spec]
  exact ⟨rfl, rfl, rfl, by simp, by simp⟩

/-- C6: the receive step of the run cycle — a closed channel delivering no
frame is raised as `BonsaiServerError` carrying the close code and reason,
while a delivered frame is returned unchanged, so `readPhase` never
reports a dead connection as an absent message; at the run-cycle level the
fixture with a closed channel aborts with exactly that error. -/
theorem closed_channel_read_raises_with_close_info :
  (∀ (closeCode : Nat) (closeReason : String),
      readPhase none closeCode closeReason =
        .error (CoreErr.bonsaiServerWsClosed closeCode closeReason))
  ∧ (∀ (f : FromServer) (closeCode : Nat) (closeReason : String),
      readPhase (some f) closeCode closeReason = .ok f)
  ∧ (runCycle simU inkC () (initSession "sim")
      { recvFrame := none, closeCode := 1006, closeReason := "abnormal closure" }
      = .error (CoreErr.bonsaiServerWsClosed 1006 "abnormal closure")) :=
  ⟨fun _ _ => rfl, fun _ _ _ => rfl, rfl⟩

/-- C9: decoding a payload whose source message is absent yields the empty
dictionary, whatever schema the message would have carried, and — being a
total function — never raises; when the message is present, the decoded
dictionary maps every field declared in the message's descriptor to that
field's value from the payload. -/
theorem decode_absent_empty_and_fields_present :
  (dict_for_message none = ([] : PyDict))
  ∧ (∀ (m : Message) (f : FieldName), f ∈ m.fields →
      pyDictLookup (dict_for_message (some m)) f = some (m.getattr f)) :=
  ⟨rfl, fun m f hf => dict_build_lookup m.getattr m.fields [] f (Or.inl hf)⟩

/-- Witness for C9: a two-field message decodes with both fields
retrievable. -/
theorem decode_absent_empty_and_fields_present_witness :
  ("angle" ∈ (Message.mk ["angle", "velocity"] (fun _ => PyVal.num 3)).fields)
  ∧ pyDictLookup
      (dict_for_message (some (Message.mk ["angle", "velocity"] (fun _ => PyVal.num 3))))
      "angle" = some (PyVal.num 3) := by
  refine ⟨by decide, ?_⟩
  exact decode_absent_empty_and_fields_present.2
    (Message.mk ["angle", "velocity"] (fun _ => PyVal.num 3)) "angle" (by decide)

/-- C10: processing a `SET_PROPERTIES` payload replaces the session's
stored prediction schema with the one carried in the message, stores the
objective name and the decoded initial properties, and leaves `sim_id`,
the properties schema, the output schema, the batch and the previous
message type untouched; consequently the action decoded for any later
prediction (`actionFor`, used by `_advance` and the predictor cache) is
decoded against the newly delivered schema, not the one from
`ACKNOWLEDGE_REGISTER`. -/
theorem set_properties_frame_effect (ink : Inkling) (s : Session)
    (data : SetPropertiesData) :
    (on_set_properties ink s data).predictionSchema = some data.prediction_schema
    ∧ (on_set_properties ink s data).objectiveName = some data.reward_name
    ∧ (on_set_properties ink s data).initProperties =
        dict_for_message
          (ink.messageForDynamicMessage (some data.dynamic_properties) s.propertiesSchema)
    ∧ (on_set_properties ink s data).simId = s.simId
    ∧ (on_set_properties ink s data).propertiesSchema = s.propertiesSchema
    ∧ (on_set_properties ink s data).outputSchema = s.outputSchema
    ∧ (on_set_properties ink s data).simSteps = s.simSteps
    ∧ (on_set_properties ink s data).prevMessageType = s.prevMessageType
    ∧ (∀ p : Option DynMsg,
        actionFor ink (on_set_properties ink s data) p =
          dict_for_message (ink.messageForDynamicMessage p (some data.prediction_schema))) :=
  ⟨rfl, rfl, rfl, rfl, rfl, rfl, rfl, rfl, fun _ => rfl⟩

/-- C3: in the batch-advance loop of `run`, when `simulate` reports
`terminal = true` for the step after prefix `pre`, the recorded event
trace of the whole batch is the prefix's trace, then — for that step —
exactly the `simulate` call, the recording of its state/reward/terminal
onto the step, one `episode_finish` call and one
`episode_start(init_properties)` call in that order, and only then the
events of the remaining steps (which start from the post-reset simulation
state `st4`); moreover the assembled reply entry for that step still
carries the terminal state, reward and terminal flag returned by that
`simulate` call.  The reply is built by `_on_send` only after the whole
advance loop has run (see `runCycle`), so every one of these events
precedes the send. -/
theorem terminal_step_resets_episode_in_order
    (σ : Type) (sim : SimInterface σ) (ink : Inkling) (s : Session)
    (st st1 st2 st3 st4 st5 : σ) (pre rest pre' rest' : List SimStep)
    (step : SimStep) (evPre evRest : List Event)
    (stateVal : PyDict) (reward : ℚ) (initState : PyDict)
    (hpre : advanceBatch sim ink st s pre = .ok (st1, pre', evPre))
    (hsim : sim.onSimulate st1 (actionFor ink s step.prediction) =
      .ok (st2, stateVal, reward, true))
    (hfin : sim.onEpisodeFinish st2 = .ok st3)
    (hstart : sim.onEpisodeStart st3 s.initProperties = .ok (st4, initState))
    (hrest : advanceBatch sim ink st4 s rest = .ok (st5, rest', evRest)) :
    advanceBatch sim ink st s (pre ++ step :: rest) =
      .ok (st5,
        pre' ++ ({ step with
                   state := some (encodedState ink s stateVal)
                   reward := reward
                   terminal := true } :: rest'),
        evPre ++ (Event.simulateCall (actionFor ink s step.prediction) ::
                  Event.stepRecorded (encodedState ink s stateVal) reward true ::
                  Event.episodeFinishCall ::
                  Event.episodeStartCall s.initProperties :: evRest))
    ∧ (∀ t : ToServer,
        (send_state { s with simSteps :=
            pre' ++ ({ step with
                       state := some (encodedState ink s stateVal)
                       reward := reward
                       terminal := true } :: rest') } t).2.1.state_data
          = t.state_data ++ (stateEntries pre' ++
              ({ state := some (encodedState ink s stateVal)
                 reward := reward
                 terminal := true
                 action_taken := step.prediction } :: stateEntries rest'))) := by
  constructor
  · have hstep : advance sim ink st1 s step =
        .ok (st4,
          { step with
            state := some (encodedState ink s stateVal)
            reward := reward
            terminal := true },
          [Event.simulateCall (actionFor ink s step.prediction),
           Event.stepRecorded (encodedState ink s stateVal) reward true,
           Event.episodeFinishCall, Event.episodeStartCall s.initProperties]) := by
      simp [advance, hsim, hfin, hstart]
    rw [advanceBatch_append σ sim ink s pre (step :: rest) st st1 pre' evPre hpre]
    simp only [advanceBatch]
    rw [hstep]
    simp [hrest]
  · intro t
    unfold send_state
    rw [send_state_loop_spec]
    simp [stateEntries, List.filterMap_append]

/-- Witness for C3: a one-step batch through the `simC` fixture, whose
`simulate` is terminal — the trace is exactly simulate, record, finish,
start, and the advanced step carries the terminal values. -/
theorem terminal_step_resets_episode_in_order_witness :
  advanceBatch simC inkC 0 (initSession "w") [stepW] =
    .ok (111,
      [{ stepW with state := some msgC
                    reward := 2
                    terminal := true }],
      [Event.simulateCall [], Event.stepRecorded msgC 2 true,
       Event.episodeFinishCall, Event.episodeStartCall []]) := by
  have h := terminal_step_resets_episode_in_order Nat simC inkC (initSession "w")
    0 0 1 11 111 111 [] [] [] [] stepW [] []
    [("angle", PyVal.num 2)] 2 [("angle", PyVal.num 1)]
    rfl rfl rfl rfl rfl
  exact h.1

/-- C5, code evaluation: the cycle that receives `FINISHED` closes the
channel and reports `False` with no send after the receive (first
conjunct); but a later run cycle whose `_prev_message_type` is `FINISHED`
does not skip the send — `_dispatch_send` has no key for `FINISHED`, the
`'default'` attribute lookup falls back to a zero-parameter lambda, and
calling it with the `to_server` argument raises `TypeError` (second and
third conjuncts), where the spec intends the builder to produce no message
type and the send to be skipped. -/
theorem finished_closes_then_later_send_raises :
  (runCycle simU inkC () (initSession "sim") { recvFrame := some finishedMsg } =
    .ok ((), { initSession "sim" with prevMessageType := ServerMsgType.FINISHED },
         false,
         [WireOp.sent (send_registration (initSession "sim") emptyToServer),
          WireOp.closedChannel]))
  ∧ (on_send simU inkC ()
      { initSession "sim" with prevMessageType := ServerMsgType.FINISHED }
      emptyToServer = .error CoreErr.typeError)
  ∧ (runCycle simU inkC ()
      { initSession "sim" with prevMessageType := ServerMsgType.FINISHED }
      { recvFrame := some finishedMsg } = .error CoreErr.typeError) :=
  ⟨rfl, rfl, rfl⟩

/-- C7, code evaluation: calling `_RateCounter.update` when the clock
still reads the reset time makes `delta = 0`, yet the guard
`delta is not 0` compares a float to the int object `0` and is therefore
always `True`, so `count / delta` is evaluated and raises
`ZeroDivisionError` instead of skipping the rate computation. -/
theorem rate_counter_update_divides_by_zero :
  (RateCounter.update 5 (RateCounter.reset 5) = .error CoreErr.zeroDivisionError)
  ∧ (∀ delta : ℚ, pyFloatIsNotIntZero delta = true) := by
  refine ⟨?_, fun _ => rfl⟩
  simp [RateCounter.update, RateCounter.reset, pyFloatIsNotIntZero]

/-- C8, counterexample: the claim says an exception from `episode_finish`
is never wrapped in a core-defined error type, but when a batch step comes
back terminal, `_advance` wraps the `episode_finish` exception `"boom"` as
`EpisodeStartError`. -/
theorem episode_finish_error_wrapped_in_advance :
  advance simFinishBoom inkC () (initSession "w") {} =
    .error (CoreErr.episodeStartError "boom") := rfl

/-- C8, amended: an exception raised by `episode_finish` propagates as-is
(unwrapped) when the core invokes it from the `STOP` handler, but in the
terminal-step path of `_advance` the single `try` block around
`episode_finish` and `episode_start` wraps an exception from either call
as `EpisodeStartError`. -/
theorem episode_finish_error_propagation :
  (∀ (σ : Type) (sim : SimInterface σ) (ink : Inkling) (st : σ) (s : Session)
      (f : FromServer) (e : PyErr),
      f.message_type = ServerMsgType.STOP →
      sim.onEpisodeFinish st = .error e →
      on_recv sim ink st s f = .error (CoreErr.uncaught e))
  ∧ (∀ (σ : Type) (sim : SimInterface σ) (ink : Inkling) (st st' : σ)
      (s : Session) (step : SimStep) (stateVal : PyDict) (reward : ℚ) (e : PyErr),
      sim.onSimulate st (actionFor ink s step.prediction) =
        .ok (st', stateVal, reward, true) →
      sim.onEpisodeFinish st' = .error e →
      advance sim ink st s step = .error (CoreErr.episodeStartError e)) := by
  constructor
  · intro σ sim ink st s f e hm hfin
    unfold on_recv
    rw [hm]
    simp [dispatch_recv, hfin]
  · intro σ sim ink st st' s step stateVal reward e hsim hfin
    simp [advance, hsim, hfin]

/-- Witness for the amended C8 theorem: the `simFinishBoom` fixture shows
both propagation modes at concrete inputs. -/
theorem episode_finish_error_propagation_witness :
  (on_recv simFinishBoom inkC () (initSession "w") stopMsg =
    .error (CoreErr.uncaught "boom"))
  ∧ (advance simFinishBoom inkC () (initSession "w") {} =
    .error (CoreErr.episodeStartError "boom")) := by
  refine ⟨?_, ?_⟩
  · exact episode_finish_error_propagation.1 Unit simFinishBoom inkC ()
      (initSession "w") stopMsg "boom" rfl rfl
  · exact episode_finish_error_propagation.2 Unit simFinishBoom inkC () ()
      (initSession "w") {} [] 0 "boom" rfl rfl

/-- Witness for C4: a two-step batch with one advanced and one stateless
step yields one entry and one warning, and the batch is cleared. -/
theorem batch_reply_entries_in_order_and_cleared_witness :
  ((send_state { initSession "w" with
      simSteps := [{ stepW with state := some msgC, reward := 2, terminal := true }, stepW] }
      emptyToServer).1.simSteps = [])
  ∧ ((send_state { initSession "w" with
      simSteps := [{ stepW with state := some msgC, reward := 2, terminal := true }, stepW] }
      emptyToServer).2.2 = 1) := by
  have h := batch_reply_entries_in_order_and_cleared
    { initSession "w" with
      simSteps := [{ stepW with state := some msgC, reward := 2, terminal := true }, stepW] }
    emptyToServer
  exact ⟨h.1, by rw [h.2.2.2.2]; rfl⟩

/-- Witness for C6: `readPhase` at a concrete closed channel and a
concrete delivered frame. -/
theorem closed_channel_read_raises_with_close_info_witness :
  (readPhase none 1001 "going away" = .error (CoreErr.bonsaiServerWsClosed 1001 "going away"))
  ∧ (readPhase (some finishedMsg) 0 "" = .ok finishedMsg) := by
  exact ⟨closed_channel_read_raises_with_close_info.1 1001 "going away",
         closed_channel_read_raises_with_close_info.2.1 finishedMsg 0 ""⟩

/-- Witness for C10: a concrete `SET_PROPERTIES` payload replaces the
prediction schema while the output schema and `sim_id` stay put. -/
theorem set_properties_frame_effect_witness :
  ((on_set_properties inkC (on_acknowledge_register (initSession "w") ackDataC)
      { prediction_schema := ["delta"], reward_name := "obj", dynamic_properties := [] }).predictionSchema
    = some ["delta"])
  ∧ ((on_set_properties inkC (on_acknowledge_register (initSession "w") ackDataC)
      { prediction_schema := ["delta"], reward_name := "obj", dynamic_properties := [] }).simId = 1) := by
  have h := set_properties_frame_effect inkC (on_acknowledge_register (initSession "w") ackDataC)
    { prediction_schema := ["delta"], reward_name := "obj", dynamic_properties := [] }
  exact ⟨h.1, by rw [h.2.2.2.1]; rfl⟩
